import Mathlib

/-!
Shallow embedding of the TrackShare server (tRPC CRUD API over a `tracks`
table) for verifying its natural-language specification.

Source layout embedded here:
- `src/unnamed/part_002` (schema.ts): zod input schemas `createTrackInputSchema`,
  `updateTrackInputSchema`, `getTrackInputSchema`, `deleteTrackInputSchema`,
  entity type `Track`.
- `src/server/src/handlers/update_track.ts` (second document, db/schema.ts):
  drizzle table `tracksTable` — `id serial primary key`, `title text NOT NULL`,
  `description text` (nullable), `file_name/file_type/file_size/track_data NOT NULL`,
  `created_at`/`updated_at timestamp defaultNow() NOT NULL`.
- `src/unnamed/part_003`: the database-backed `createTrack` handler (insert +
  returning) and the `getTracks` handler (select all).
- `src/server/src/handlers/delete_track.ts`: the database-backed `deleteTrack`.
- `src/server/src/handlers/get_track.ts` and `update_track.ts` (first document):
  placeholder handler bodies that fabricate a `Track` without touching the
  database; embedded as written, since they are the code at those paths.
- `src/server/src/index.ts`: the tRPC router (`healthcheck`, input validation
  in front of each handler).

The relational store is modelled as a list of rows plus the state of the
`serial` id sequence: `nextId` is the next value the sequence will hand out and
`issued` records every id it has handed out so far (Postgres sequences never
reuse a value, including ids of rows deleted later).  Timestamps are a `Nat`
clock passed in by the caller (`new Date()` / SQL `now()`).
-/

namespace TrackShare

/-- `file_type` enum from db/schema.ts / schema.ts: `pgEnum('file_type', ['gpx', 'kml'])`. -/
inductive FileType where
  | gpx
  | kml
deriving DecidableEq, Repr

/-- A row of `tracksTable` (db/schema.ts), equally the zod `trackSchema` entity.
`title` is a plain `String` because the column is `text('title').notNull()`;
`description` is `Option String` because that column is nullable. -/
structure Track where
  id : Nat
  title : String
  description : Option String
  file_name : String
  file_type : FileType
  file_size : Int
  track_data : String
  created_at : Nat
  updated_at : Nat
deriving DecidableEq, Repr

/-- The database state: current rows, plus the `serial` sequence state for
`tracksTable.id` (`nextId` = next value, `issued` = all values handed out). -/
structure Store where
  rows : List Track
  nextId : Nat
  issued : List Nat
deriving DecidableEq, Repr

/-- The freshly created database (sequence starts at 1, no rows). -/
def Store.init : Store := { rows := [], nextId := 1, issued := [] }

/-- `CreateTrackInput` (schema.ts), the type of inputs that passed
`createTrackInputSchema`. -/
structure CreateTrackInput where
  title : String
  description : Option String
  file_name : String
  file_type : FileType
  file_size : Int
  track_data : String
deriving DecidableEq, Repr

/-- `UpdateTrackInput` (schema.ts): `title` optional (not nullable),
`description` optional and nullable — `none` = field omitted,
`some none` = explicit null, `some (some s)` = replacement string. -/
structure UpdateTrackInput where
  id : Nat
  title : Option String
  description : Option (Option String)
deriving DecidableEq, Repr

/-- `SuccessResponse` (schema.ts): `{ success: boolean, message?: string }`. -/
structure SuccessResponse where
  success : Bool
  message : Option String
deriving DecidableEq, Repr

/-- `createTrack` from src/unnamed/part_003: inserts one row built from the
input, with the id drawn from the serial sequence and both timestamps set by
`defaultNow()`, and returns the inserted row (`.returning()` / `result[0]`). -/
def createTrack (s : Store) (now : Nat) (input : CreateTrackInput) : Track × Store :=
  let t : Track :=
    { id := s.nextId
      title := input.title
      description := input.description
      file_name := input.file_name
      file_type := input.file_type
      file_size := input.file_size
      track_data := input.track_data
      created_at := now
      updated_at := now }
  (t, { rows := s.rows ++ [t], nextId := s.nextId + 1, issued := s.issued ++ [s.nextId] })

/-- `getTracks` from src/unnamed/part_003: `db.select().from(tracksTable)`,
returned as-is. -/
def getTracks (s : Store) : List Track := s.rows

/-- `getTrack` from src/server/src/handlers/get_track.ts, embedded as written:
the body is a placeholder that resolves to a fabricated `Track` carrying the
requested id, for every id and regardless of the store (which it never reads). -/
def getTrack (now : Nat) (id : Nat) : Option Track :=
  some
    { id := id
      title := "Placeholder Track"
      description := some "This is a placeholder track"
      file_name := "sample.gpx"
      file_type := FileType.gpx
      file_size := 1024
      track_data := "<gpx>...</gpx>"
      created_at := now
      updated_at := now }

/-- `updateTrack` from src/server/src/handlers/update_track.ts, embedded as
written: a placeholder that never reads or writes the store and resolves to a
fabricated `Track`.  `input.title || 'Updated Track Title'` is JavaScript `||`
on a possibly-undefined string, so both an omitted title and the empty string
fall back to the literal; `input.description !== undefined ? input.description
: 'Updated description'` keeps an explicit null but replaces an omitted field
with the literal. -/
def updateTrack (now : Nat) (input : UpdateTrackInput) : Option Track :=
  some
    { id := input.id
      title :=
        match input.title with
        | some t => if t == "" then "Updated Track Title" else t
        | none => "Updated Track Title"
      description :=
        match input.description with
        | some d => d
        | none => some "Updated description"
      file_name := "sample.gpx"
      file_type := FileType.gpx
      file_size := 1024
      track_data := "<gpx>...</gpx>"
      created_at := now
      updated_at := now }

/-- `deleteTrack` from src/server/src/handlers/delete_track.ts: selects the
rows with the given id; if none, throws `Track with ID <id> not found`;
otherwise deletes them (`.returning()` yields the deleted rows), throws if that
returned nothing, and resolves with a success message.  A thrown error is an
`Except.error` carrying the message, and leaves the store as it was. -/
def deleteTrack (s : Store) (id : Nat) : Except String SuccessResponse × Store :=
  let existingTrack := s.rows.filter (fun t => t.id == id)
  if existingTrack.isEmpty then
    (Except.error ("Track with ID " ++ toString id ++ " not found"), s)
  else
    let result := existingTrack
    let remaining := s.rows.filter (fun t => t.id != id)
    if result.isEmpty then
      (Except.error ("Failed to delete track with ID " ++ toString id), s)
    else
      (Except.ok
        { success := true
          message := some ("Track with ID " ++ toString id ++ " has been deleted successfully") },
       { s with rows := remaining })

/-- The wire-level shape of a `createTrack` request body before zod parsing:
`file_type` is still an arbitrary string and nothing has been checked.
(`description` is `z.string().nullable()`: `none` models JSON null.) -/
structure RawCreateInput where
  title : String
  description : Option String
  file_name : String
  file_type : String
  file_size : Int
  track_data : String
deriving DecidableEq, Repr

/-- `z.enum(['gpx', 'kml'])` from schema.ts. -/
def parseFileType (s : String) : Option FileType :=
  if s == "gpx" then some FileType.gpx
  else if s == "kml" then some FileType.kml
  else none

/-- `createTrackInputSchema` from schema.ts (src/unnamed/part_002 lines
212-219), as the parse it performs: `title: z.string().min(1).max(200)`,
`file_name: z.string().min(1)`, `file_type: z.enum(['gpx','kml'])`,
`file_size: z.number().int().positive()` (the `int()` half is carried by the
`Int` field type), `track_data: z.string().min(1)`; `none` is a
ValidationError. -/
def createTrackInputSchema (i : RawCreateInput) : Option CreateTrackInput :=
  match parseFileType i.file_type with
  | none => none
  | some ft =>
    if i.title.length < 1 then none
    else if 200 < i.title.length then none
    else if i.file_name.length < 1 then none
    else if i.file_size ≤ 0 then none
    else if i.track_data.length < 1 then none
    else some
      { title := i.title
        description := i.description
        file_name := i.file_name
        file_type := ft
        file_size := i.file_size
        track_data := i.track_data }

/-- The wire-level shape of an `updateTrack` request body: for `title`,
`none` = omitted and `some none` = JSON null (which the schema rejects, since
`title` is optional but not nullable); `description` is optional and
nullable. -/
structure RawUpdateInput where
  id : Nat
  title : Option (Option String)
  description : Option (Option String)
deriving DecidableEq, Repr

/-- `updateTrackInputSchema` from schema.ts (src/unnamed/part_002 lines
224-228): `title: z.string().min(1).max(200).optional()` (omitted OK, null
rejected, string checked), `description: z.string().nullable().optional()`. -/
def updateTrackInputSchema (i : RawUpdateInput) : Option UpdateTrackInput :=
  match i.title with
  | none => some { id := i.id, title := none, description := i.description }
  | some none => none
  | some (some t) =>
    if t.length < 1 then none
    else if 200 < t.length then none
    else some { id := i.id, title := some t, description := i.description }

/-- tRPC error signalled when an input schema rejects the request, before the
handler (and hence the store) is reached. -/
inductive TRPCError where
  | validationError
deriving DecidableEq, Repr

/-- The `createTrack` route from src/server/src/index.ts:
`.input(createTrackInputSchema).mutation(({ input }) => createTrack(input))` —
zod validation first, the handler only on success. -/
def routeCreateTrack (s : Store) (now : Nat) (i : RawCreateInput) :
    Except TRPCError Track × Store :=
  match createTrackInputSchema i with
  | none => (Except.error TRPCError.validationError, s)
  | some input =>
    let r := createTrack s now input
    (Except.ok r.1, r.2)

/-- Modelled from the spec: the persisting `updateTrack` handler is not in
src/ — src/server/src/handlers/update_track.ts holds only a placeholder body,
while the repository's update_track tests exercise a database-backed
implementation.  Following spec §4.4: look the row up by id; if absent return
the null sentinel and leave the store alone; otherwise apply exactly the
provided fields (omitted title/description left unchanged, explicit null
clears description), set `updated_at` to the current time, persist the row,
and return it. -/
def applyUpdate (input : UpdateTrackInput) (now : Nat) (t : Track) : Track :=
  { t with
    title := input.title.getD t.title
    description :=
      match input.description with
      | some d => d
      | none => t.description
    updated_at := now }

/-- Modelled from the spec (§4.4, continued): the full handler — sentinel on a
missing id, otherwise apply `applyUpdate` to the matching row and persist. -/
def updateTrackDb (s : Store) (now : Nat) (input : UpdateTrackInput) :
    Option Track × Store :=
  match s.rows.find? (fun t => t.id == input.id) with
  | none => (none, s)
  | some t =>
    let t' := applyUpdate input now t
    (some t', { s with rows := s.rows.map (fun r => if r.id == input.id then t' else r) })

/-- The store states reachable through the API: the fresh database, then any
sequence of validated creates, updates (database-backed model) and deletes.
(`getTracks`, `getTrack` and `healthcheck` never write, and the placeholder
`updateTrack` body never touches the store at all.) -/
inductive Reachable : Store → Prop where
  | init : Reachable Store.init
  | create (s : Store) (now : Nat) (i : RawCreateInput) (input : CreateTrackInput) :
      Reachable s → createTrackInputSchema i = some input →
      Reachable (createTrack s now input).2
  | update (s : Store) (now : Nat) (i : RawUpdateInput) (input : UpdateTrackInput) :
      Reachable s → updateTrackInputSchema i = some input →
      Reachable (updateTrackDb s now input).2
  | delete (s : Store) (id : Nat) :
      Reachable s → Reachable (deleteTrack s id).2

/-- `healthcheck` from src/server/src/index.ts:
`() => ({ status: 'ok', timestamp: new Date().toISOString() })`. -/
structure HealthcheckResponse where
  status : String
  timestamp : Nat
deriving DecidableEq, Repr

/-- The healthcheck procedure body. -/
def healthcheck (now : Nat) : HealthcheckResponse :=
  { status := "ok", timestamp := now }

/-- The healthcheck route: a query with no input; it never touches the store. -/
def routeHealthcheck (s : Store) (now : Nat) : HealthcheckResponse × Store :=
  (healthcheck now, s)

/-! Concrete fixtures (drawn from the repository's test files) used to
instantiate hypotheses in witnesses and counterexamples. -/

/-- A valid `CreateTrackInput`, after the shape of the create_track tests. -/
def sampleCreateInput : CreateTrackInput :=
  { title := "San Francisco Hike"
    description := some "A beautiful hiking trail in San Francisco"
    file_name := "sf_hike.gpx"
    file_type := FileType.gpx
    file_size := 1024
    track_data := "<gpx>track</gpx>" }

/-- The same input at the wire level, before zod parsing. -/
def rawSampleCreate : RawCreateInput :=
  { title := "San Francisco Hike"
    description := some "A beautiful hiking trail in San Francisco"
    file_name := "sf_hike.gpx"
    file_type := "gpx"
    file_size := 1024
    track_data := "<gpx>track</gpx>" }

/-- A stored row, after the shape of the update_track tests (`Original Track`
with `Original description` and file `original.gpx`). -/
def storedTrack : Track :=
  { id := 1
    title := "Original Track"
    description := some "Original description"
    file_name := "original.gpx"
    file_type := FileType.gpx
    file_size := 2048
    track_data := "<gpx>original</gpx>"
    created_at := 10
    updated_at := 10 }

/-- A second stored row with a distinct id. -/
def otherTrack : Track :=
  { id := 2
    title := "City Walk"
    description := none
    file_name := "city_walk.kml"
    file_type := FileType.kml
    file_size := 512
    track_data := "<kml>walk</kml>"
    created_at := 11
    updated_at := 11 }

/-- A store holding the two fixture rows, sequence at 3. -/
def twoRowStore : Store :=
  { rows := [storedTrack, otherTrack], nextId := 3, issued := [1, 2] }

/-- A wire-level create request that satisfies every constraint the claim
lists (non-empty short title, enum file_type, positive size, non-empty
track_data) but has an empty `file_name`. -/
def badCreateInput : RawCreateInput :=
  { title := "Valid Title"
    description := none
    file_name := ""
    file_type := "gpx"
    file_size := 1
    track_data := "x" }

/-! ## Theorems -/

/-- C10: every call to `healthcheck` returns an object whose `status` field is
exactly the string "ok", together with a timestamp equal to the current time,
regardless of the contents of the track store and without changing it. -/
theorem healthcheck_status_ok (s : Store) (now : Nat) :
    (routeHealthcheck s now).1.status = "ok" ∧
    (routeHealthcheck s now).1.timestamp = now ∧
    (routeHealthcheck s now).2 = s :=
  ⟨rfl, rfl, rfl⟩

/-- C1: on the database-backed `createTrack` (src/unnamed/part_003), any
input yields a returned `Track` whose title, description, file_name,
file_type, file_size and track_data equal the input's, whose `created_at`
equals `updated_at`, whose id was never issued by the serial sequence before
(given the sequence invariant that all issued ids are below `nextId`), and
whose sole side effect on the rows is appending that one row. -/
theorem createTrack_correct (s : Store) (now : Nat) (input : CreateTrackInput)
    (hseq : ∀ i ∈ s.issued, i < s.nextId) :
    (createTrack s now input).1.title = input.title ∧
    (createTrack s now input).1.description = input.description ∧
    (createTrack s now input).1.file_name = input.file_name ∧
    (createTrack s now input).1.file_type = input.file_type ∧
    (createTrack s now input).1.file_size = input.file_size ∧
    (createTrack s now input).1.track_data = input.track_data ∧
    (createTrack s now input).1.created_at = (createTrack s now input).1.updated_at ∧
    (createTrack s now input).1.id ∉ s.issued ∧
    (createTrack s now input).2.rows = s.rows ++ [(createTrack s now input).1] := by
  refine ⟨rfl, rfl, rfl, rfl, rfl, rfl, rfl, ?_, rfl⟩
  intro hmem
  exact Nat.lt_irrefl s.nextId (hseq s.nextId hmem)

/-- Witness for C1 at the fresh store and the sample input. -/
theorem createTrack_correct_witness :
    (∀ i ∈ Store.init.issued, i < Store.init.nextId) ∧
    ((createTrack Store.init 0 sampleCreateInput).1.title = sampleCreateInput.title ∧
     (createTrack Store.init 0 sampleCreateInput).1.id ∉ Store.init.issued ∧
     (createTrack Store.init 0 sampleCreateInput).2.rows
       = Store.init.rows ++ [(createTrack Store.init 0 sampleCreateInput).1]) := by
  have h := createTrack_correct Store.init 0 sampleCreateInput (by simp [Store.init])
  exact ⟨by simp [Store.init], h.1, h.2.2.2.2.2.2.2.1, h.2.2.2.2.2.2.2.2⟩

/-- C2 (divergence): the `getTrack` handler at
src/server/src/handlers/get_track.ts is a placeholder that fabricates a
`Track` for every id; on id 999999 — never inserted, the store being
irrelevant since the handler never reads it — it returns a non-null track
titled "Placeholder Track" where the claim requires the null sentinel. -/
theorem getTrack_placeholder_not_null :
    getTrack 0 999999 ≠ none ∧
    (getTrack 0 999999).map Track.title = some "Placeholder Track" ∧
    Store.init.rows = [] :=
  ⟨by simp [getTrack], rfl, rfl⟩

/-- C3 (divergence): the `updateTrack` handler at
src/server/src/handlers/update_track.ts is a placeholder that never consults
the store; on id 999999 — absent from every store — it returns a non-null
fabricated `Track` where the claim requires the null sentinel. -/
theorem updateTrack_placeholder_not_null :
    updateTrack 0 { id := 999999, title := some "Updated Title", description := none } ≠ none ∧
    (updateTrack 0 { id := 999999, title := some "Updated Title", description := none }).map
      Track.id = some 999999 :=
  ⟨by simp [updateTrack], rfl⟩

/-- C4 (divergence): on an update input whose title and description are both
omitted, the placeholder `updateTrack` returns the literals
"Updated Track Title" and "Updated description" instead of the stored row's
unchanged values ("Original Track" / "Original description"). -/
theorem updateTrack_placeholder_omitted_fields :
    (updateTrack 20 { id := 1, title := none, description := none }).map Track.description
      = some (some "Updated description") ∧
    (updateTrack 20 { id := 1, title := none, description := none }).map Track.title
      = some "Updated Track Title" ∧
    storedTrack.id = 1 ∧
    storedTrack.description = some "Original description" ∧
    some "Updated description" ≠ storedTrack.description ∧
    "Updated Track Title" ≠ storedTrack.title := by
  refine ⟨rfl, rfl, rfl, rfl, by decide, by decide⟩

/-- C5 (divergence): on `{id := 1, title := some "X"}` against the stored row
`storedTrack`, the placeholder `updateTrack` fabricates the immutable fields
instead of carrying the stored ones: it reports file_name "sample.gpx",
file_size 1024 and track_data "<gpx>...</gpx>" where the store holds
"original.gpx", 2048 and "<gpx>original</gpx>"; it also never writes the
store (the handler body performs no database operation at all). -/
theorem updateTrack_placeholder_frame_violation :
    (updateTrack 20 { id := 1, title := some "X", description := none }).map Track.file_name
      = some "sample.gpx" ∧
    (updateTrack 20 { id := 1, title := some "X", description := none }).map Track.file_size
      = some 1024 ∧
    (updateTrack 20 { id := 1, title := some "X", description := none }).map Track.track_data
      = some "<gpx>...</gpx>" ∧
    storedTrack.id = 1 ∧
    "sample.gpx" ≠ storedTrack.file_name ∧
    (1024 : Int) ≠ storedTrack.file_size ∧
    "<gpx>...</gpx>" ≠ storedTrack.track_data := by
  refine ⟨rfl, rfl, rfl, rfl, by decide, by decide, by decide⟩

/-- C6: deleting an id no row carries makes `deleteTrack` fail with an error
whose message mentions that id, and leaves the store exactly as it was. -/
theorem deleteTrack_absent_id (s : Store) (id : Nat)
    (h : ∀ t ∈ s.rows, t.id ≠ id) :
    (deleteTrack s id).2 = s ∧
    ∃ pre post, (deleteTrack s id).1 = Except.error (pre ++ toString id ++ post) := by
  have hfilter : s.rows.filter (fun t => t.id == id) = [] := by
    rw [List.filter_eq_nil_iff]
    intro a ha
    simp [h a ha]
  refine ⟨by simp [deleteTrack, hfilter], "Track with ID ", " not found", ?_⟩
  simp [deleteTrack, hfilter]

/-- Witness for C6: deleting id 7 from the two-row fixture store. -/
theorem deleteTrack_absent_id_witness :
    (∀ t ∈ twoRowStore.rows, t.id ≠ 7) ∧
    ((deleteTrack twoRowStore 7).2 = twoRowStore ∧
     ∃ pre post, (deleteTrack twoRowStore 7).1 = Except.error (pre ++ toString 7 ++ post)) :=
  ⟨by decide, deleteTrack_absent_id twoRowStore 7 (by decide)⟩

/-- Helper: a filter and the filter of its negation split a list's length. -/
theorem length_filter_partition {α : Type} (l : List α) (p : α → Bool) :
    (l.filter p).length + (l.filter (fun a => !(p a))).length = l.length := by
  induction l with
  | nil => rfl
  | cons a l ih =>
    cases hp : p a <;> simp [List.filter_cons, hp] <;> omega

/-- Helper: when row ids are pairwise distinct, filtering for the id of a
member row yields exactly that row. -/
theorem filter_id_single (l : List Track) (i : Nat) (t0 : Track)
    (hnd : (l.map Track.id).Nodup) (ht0 : t0 ∈ l) (hid : t0.id = i) :
    l.filter (fun t => t.id == i) = [t0] := by
  induction l with
  | nil => cases ht0
  | cons a l ih =>
    simp only [List.map_cons, List.nodup_cons] at hnd
    rcases List.mem_cons.mp ht0 with rfl | hmem
    · have hpa : (t0.id == i) = true := by simp [hid]
      rw [List.filter_cons]
      simp only [hpa, if_true]
      have hrest : l.filter (fun t => t.id == i) = [] := by
        rw [List.filter_eq_nil_iff]
        intro b hb
        simp only [beq_iff_eq]
        intro hbi
        exact hnd.1 (List.mem_map.mpr ⟨b, hb, by rw [hbi, hid]⟩)
      rw [hrest]
    · have hpa : (a.id == i) = false := by
        simp only [beq_eq_false_iff_ne, ne_eq]
        intro hai
        exact hnd.1 (List.mem_map.mpr ⟨t0, hmem, by rw [hid, hai]⟩)
      rw [List.filter_cons]
      simp only [hpa]
      exact ih hnd.2 hmem

/-- C7: deleting an id carried by a member row (with pairwise-distinct row
ids) succeeds with `success := true` and a message mentioning the id, removes
that row from `getTracks`'s result, keeps every row with a different id, adds
nothing, and shrinks the row count by exactly one. -/
theorem deleteTrack_present_id (s : Store) (i : Nat) (t0 : Track)
    (hnd : (s.rows.map Track.id).Nodup) (ht0 : t0 ∈ s.rows) (hid : t0.id = i) :
    (deleteTrack s i).1 = Except.ok
      { success := true
        message := some ("Track with ID " ++ toString i ++ " has been deleted successfully") } ∧
    (∀ t ∈ getTracks (deleteTrack s i).2, t.id ≠ i) ∧
    (∀ t ∈ s.rows, t.id ≠ i → t ∈ getTracks (deleteTrack s i).2) ∧
    (∀ t ∈ getTracks (deleteTrack s i).2, t ∈ s.rows) ∧
    (getTracks (deleteTrack s i).2).length + 1 = s.rows.length := by
  have hfilter := filter_id_single s.rows i t0 hnd ht0 hid
  have hok : (deleteTrack s i).1 = Except.ok
      { success := true
        message := some ("Track with ID " ++ toString i ++ " has been deleted successfully") } := by
    simp [deleteTrack, hfilter]
  have hstore : getTracks (deleteTrack s i).2 = s.rows.filter (fun t => t.id != i) := by
    simp [deleteTrack, getTracks, hfilter]
  refine ⟨hok, ?_, ?_, ?_, ?_⟩
  · intro t ht
    rw [hstore] at ht
    have := (List.mem_filter.mp ht).2
    simpa using this
  · intro t ht hne
    rw [hstore]
    exact List.mem_filter.mpr ⟨ht, by simpa using hne⟩
  · intro t ht
    rw [hstore] at ht
    exact (List.mem_filter.mp ht).1
  · have hpart := length_filter_partition s.rows (fun t => t.id == i)
    have hbne : s.rows.filter (fun t => t.id != i)
        = s.rows.filter (fun t => !(t.id == i)) := rfl
    rw [hstore, hbne]
    rw [hfilter] at hpart
    simp only [List.length_singleton] at hpart
    omega

/-- Witness for C7: deleting id 1 (the `storedTrack` row) from the two-row
fixture store. -/
theorem deleteTrack_present_id_witness :
    ((twoRowStore.rows.map Track.id).Nodup ∧ storedTrack ∈ twoRowStore.rows ∧
      storedTrack.id = 1) ∧
    (getTracks (deleteTrack twoRowStore 1).2).length + 1 = twoRowStore.rows.length :=
  ⟨⟨by decide, by decide, rfl⟩,
   (deleteTrack_present_id twoRowStore 1 storedTrack (by decide) (by decide) rfl).2.2.2.2⟩

/-- Helper: a title accepted by `createTrackInputSchema` is non-empty. -/
theorem createTrackInputSchema_title_nonempty (i : RawCreateInput)
    (input : CreateTrackInput) (h : createTrackInputSchema i = some input) :
    input.title ≠ "" := by
  unfold createTrackInputSchema at h
  split at h
  · cases h
  · split at h
    · cases h
    · split at h
      · cases h
      · split at h
        · cases h
        · split at h
          · cases h
          · split at h
            · cases h
            · rename_i h1 h2 h3 h4 h5
              have heq := Option.some.inj h
              subst heq
              show i.title ≠ ""
              intro hemp
              exact h1 (by rw [hemp]; decide)

/-- Helper: a provided title accepted by `updateTrackInputSchema` is
non-empty. -/
theorem updateTrackInputSchema_title_nonempty (i : RawUpdateInput)
    (input : UpdateTrackInput) (h : updateTrackInputSchema i = some input)
    (x : String) (hx : input.title = some x) : x ≠ "" := by
  unfold updateTrackInputSchema at h
  split at h
  · have heq := Option.some.inj h
    subst heq
    simp at hx
  · cases h
  · rename_i tv heq
    split at h
    · cases h
    · split at h
      · cases h
      · rename_i h1 h2
        have hrec := Option.some.inj h
        subst hrec
        have hx' : tv = x := by simpa using hx
        subst hx'
        intro hemp
        exact h1 (by rw [hemp]; decide)

/-- C9: in every store state reachable through the API (validated creates,
database-backed updates, deletes), every persisted row's title is non-empty —
and it is non-null by type, since the `title` column is `NOT NULL`; moreover
the update schema rejects an explicit null title outright, so no operation can
clear a title. -/
theorem reachable_title_nonempty (s : Store) (h : Reachable s) :
    (∀ t ∈ s.rows, t.title ≠ "") ∧
    (∀ i : RawUpdateInput, i.title = some none → updateTrackInputSchema i = none) := by
  refine ⟨?_, ?_⟩
  · induction h with
    | init => intro t ht; simp [Store.init] at ht
    | create s now i input hr hschema ih =>
      intro t ht
      have hrows : (createTrack s now input).2.rows
          = s.rows ++ [(createTrack s now input).1] := rfl
      rw [hrows] at ht
      rcases List.mem_append.mp ht with ht | ht
      · exact ih t ht
      · rw [List.mem_singleton] at ht
        subst ht
        exact createTrackInputSchema_title_nonempty i input hschema
    | update s now i input hr hschema ih =>
      intro t ht
      cases hfind : s.rows.find? (fun r => r.id == input.id) with
      | none =>
        have hsame : (updateTrackDb s now input).2 = s := by
          simp [updateTrackDb, hfind]
        rw [hsame] at ht
        exact ih t ht
      | some r0 =>
        have hrows : (updateTrackDb s now input).2.rows
            = s.rows.map (fun r => if r.id == input.id then applyUpdate input now r0 else r) := by
          simp [updateTrackDb, hfind]
        rw [hrows] at ht
        rcases List.mem_map.mp ht with ⟨r, hr, heq⟩
        by_cases hcase : (r.id == input.id) = true
        · rw [if_pos hcase] at heq
          rw [← heq]
          show (applyUpdate input now r0).title ≠ ""
          cases hti : input.title with
          | none =>
            have : (applyUpdate input now r0).title = r0.title := by
              simp [applyUpdate, hti]
            rw [this]
            exact ih r0 (List.mem_of_find?_eq_some hfind)
          | some x =>
            have : (applyUpdate input now r0).title = x := by
              simp [applyUpdate, hti]
            rw [this]
            exact updateTrackInputSchema_title_nonempty i input hschema x hti
        · rw [if_neg hcase] at heq
          rw [← heq]
          exact ih r hr
    | delete s id hr ih =>
      intro t ht
      by_cases hemp : (s.rows.filter (fun t => t.id == id)).isEmpty = true
      · have hsame : (deleteTrack s id).2 = s := by
          simp [deleteTrack, hemp]
        rw [hsame] at ht
        exact ih t ht
      · have hrows : (deleteTrack s id).2.rows = s.rows.filter (fun t => t.id != id) := by
          simp [deleteTrack, hemp]
        rw [hrows] at ht
        exact ih t (List.mem_filter.mp ht).1
  · intro i hi
    simp [updateTrackInputSchema, hi]

/-- Witness for C9: the store after one validated create is reachable and
satisfies the invariant. -/
theorem reachable_title_nonempty_witness :
    Reachable (createTrack Store.init 0 sampleCreateInput).2 ∧
    (∀ t ∈ (createTrack Store.init 0 sampleCreateInput).2.rows, t.title ≠ "") := by
  have hreach : Reachable (createTrack Store.init 0 sampleCreateInput).2 :=
    Reachable.create Store.init 0 rawSampleCreate sampleCreateInput Reachable.init (by decide)
  exact ⟨hreach, (reachable_title_nonempty _ hreach).1⟩

/-- C8 counterexample: `badCreateInput` satisfies every condition the claim
lists (non-empty title of length ≤ 200, `file_type` in the enum, positive
`file_size`, non-empty `track_data`) yet `createTrackInputSchema` rejects it,
because its `file_name` is empty — a constraint the claim omits. -/
theorem createTrack_validation_counterexample :
    createTrackInputSchema badCreateInput = none ∧
    badCreateInput.title ≠ "" ∧
    badCreateInput.title.length ≤ 200 ∧
    (badCreateInput.file_type = "gpx" ∨ badCreateInput.file_type = "kml") ∧
    0 < badCreateInput.file_size ∧
    badCreateInput.track_data ≠ "" := by
  refine ⟨by decide, by decide, by decide, Or.inl (by decide), by decide, by decide⟩

/-- C8 (amended): `createTrackInputSchema` accepts exactly the inputs with a
title of length 1–200, a non-empty `file_name`, a `file_type` in {gpx, kml},
a positive `file_size` and a non-empty `track_data`; when it rejects, the
`createTrack` route fails with a ValidationError before the handler runs and
the store is unchanged. -/
theorem createTrack_validation_exact (i : RawCreateInput) :
    ((createTrackInputSchema i).isSome = true ↔
      (1 ≤ i.title.length ∧ i.title.length ≤ 200 ∧ 1 ≤ i.file_name.length ∧
       (i.file_type = "gpx" ∨ i.file_type = "kml") ∧ 0 < i.file_size ∧
       1 ≤ i.track_data.length)) ∧
    (createTrackInputSchema i = none →
      ∀ (s : Store) (now : Nat),
        routeCreateTrack s now i = (Except.error TRPCError.validationError, s)) := by
  constructor
  · cases hft : parseFileType i.file_type with
    | none =>
      have hs : i.file_type ≠ "gpx" ∧ i.file_type ≠ "kml" := by
        unfold parseFileType at hft
        split_ifs at hft with h1 h2
        exact ⟨by simpa using h1, by simpa using h2⟩
      simp only [createTrackInputSchema, hft, Option.isSome_none]
      constructor
      · intro hfalse; cases hfalse
      · rintro ⟨-, -, -, hty, -, -⟩
        rcases hty with h | h
        · exact absurd h hs.1
        · exact absurd h hs.2
    | some ft =>
      have hs : i.file_type = "gpx" ∨ i.file_type = "kml" := by
        unfold parseFileType at hft
        split_ifs at hft with h1 h2
        · exact Or.inl (by simpa using h1)
        · exact Or.inr (by simpa using h2)
      simp only [createTrackInputSchema, hft]
      split_ifs with h1 h2 h3 h4 h5
      · constructor
        · intro hfalse; cases hfalse
        · rintro ⟨ha, -, -, -, -, -⟩; omega
      · constructor
        · intro hfalse; cases hfalse
        · rintro ⟨-, hb, -, -, -, -⟩; omega
      · constructor
        · intro hfalse; cases hfalse
        · rintro ⟨-, -, hc, -, -, -⟩; omega
      · constructor
        · intro hfalse; cases hfalse
        · rintro ⟨-, -, -, -, hd, -⟩; omega
      · constructor
        · intro hfalse; cases hfalse
        · rintro ⟨-, -, -, -, -, he⟩; omega
      · constructor
        · intro _
          exact ⟨by omega, by omega, by omega, hs, by omega, by omega⟩
        · intro _; rfl
  · intro hnone s now
    simp [routeCreateTrack, hnone]

/-- Witness for C8: at `badCreateInput`, the schema rejects and the route
returns a ValidationError with the store untouched. -/
theorem createTrack_validation_exact_witness :
    createTrackInputSchema badCreateInput = none ∧
    routeCreateTrack Store.init 0 badCreateInput
      = (Except.error TRPCError.validationError, Store.init) :=
  ⟨by decide, (createTrack_validation_exact badCreateInput).2 (by decide) Store.init 0⟩

end TrackShare
